import Mathlib

set_option linter.unusedVariables false
set_option maxRecDepth 8000

/-!
Shallow embedding of `src/ADS1115.py` (an ADS1115 analog-to-digital converter
driver for the Orange Pi PC, talking to the chip over I2C via `smbus2`).

The I2C transport (`smbus2`) is modelled as an oracle (`Transport`): every bus
primitive the source calls — `SMBus(channel)` construction, `write_quick`,
`write_i2c_block_data`, `read_i2c_block_data` — is answered by the oracle, with
`false` / `none` standing for the `OSError` the real library raises.  Each
oracle field takes, as its first argument, the number of transactions of that
kind already attempted during the current top-level call, so distinct
transactions of one call may be answered differently (e.g. the conversion
register may return different bytes for each of the four channels).

Every bus transaction attempted is also recorded in an event log
(`List BusEvent`), threaded through the functions in source order, so that
properties such as "no configuration write is attempted" or "these exact two
bytes are written" can be stated about the code.

Python exceptions are modelled with `Except`: a function whose Python body
catches everything (`except Exception`) has a non-`Except` return type, and
the exception types the module defines (`AdsReadException`, `AdsNotFound`) as
well as `OSError`/`NameError` appear as constructors.  Module-level bindings
(the script binds `address`, `resolution`, `i2c_channel` at top level only
when run as `__main__`) are modelled by `Globals`, with `none` for an unbound
name; `Device.read` consults them exactly where the source text uses those
bare names rather than `self.…`.

Machine integers: Python ints are unbounded, so `Nat`/`Int` are used directly;
the only wrap-around in the source is the explicit `value -= 65536`
sign-adjustment, reproduced verbatim in `to_signed_16`.  The float
`resolution` is modelled as `ℚ`; the source's `value * resolution` is a single
multiplication, so no rounding behaviour is lost.
-/

namespace ADS1115

/-! ## Module constants (source lines 6–21) -/

def ADS1115_CONFIG_OS_SINGLE : Nat := 0x8000

def ADS1115_CONFIG_MUX_SINGLE_0 : Nat := 0x4000

def ADS1115_CONFIG_MUX_SINGLE_1 : Nat := 0x5000

def ADS1115_CONFIG_MUX_SINGLE_2 : Nat := 0x6000

def ADS1115_CONFIG_MUX_SINGLE_3 : Nat := 0x7000

def ADS1115_CONFIG_PGA_4_096V : Nat := 0x0200

def ADS1115_CONFIG_MODE_SINGLE : Nat := 0x0100

def ADS1115_CONFIG_DR_128SPS : Nat := 0x0080

def ADS1115_CONFIG_CMODE_TRAD : Nat := 0x0000

def ADS1115_CONFIG_CPOL_ACTVLOW : Nat := 0x0000

def ADS1115_CONFIG_CLATCH_NONLAT : Nat := 0x0000

def ADS1115_CONFIG_CQUE_NONE : Nat := 0x0003

def ADS1115_POINTER_CONVERT : Nat := 0x00

def ADS1115_POINTER_CONFIG : Nat := 0x01

/-! ## Bus events and transport oracle -/

/-- BusEvent: one attempted I2C transaction, as issued by the source. -/
inductive BusEvent where
  | busOpen (channel : Nat)
  | quickWrite (channel address : Nat)
  | blockWrite (channel address reg : Nat) (data : List Nat)
  | blockRead (channel address reg len : Nat)
deriving DecidableEq

/-- countOpens: number of `SMBus(channel)` constructions attempted so far. -/
def countOpens : List BusEvent → Nat
  | [] => 0
  | BusEvent.busOpen _ :: l => countOpens l + 1
  | BusEvent.quickWrite _ _ :: l => countOpens l
  | BusEvent.blockWrite _ _ _ _ :: l => countOpens l
  | BusEvent.blockRead _ _ _ _ :: l => countOpens l

/-- countQuicks: number of `write_quick` transactions attempted so far. -/
def countQuicks : List BusEvent → Nat
  | [] => 0
  | BusEvent.busOpen _ :: l => countQuicks l
  | BusEvent.quickWrite _ _ :: l => countQuicks l + 1
  | BusEvent.blockWrite _ _ _ _ :: l => countQuicks l
  | BusEvent.blockRead _ _ _ _ :: l => countQuicks l

/-- countWrites: number of `write_i2c_block_data` transactions attempted so far. -/
def countWrites : List BusEvent → Nat
  | [] => 0
  | BusEvent.busOpen _ :: l => countWrites l
  | BusEvent.quickWrite _ _ :: l => countWrites l
  | BusEvent.blockWrite _ _ _ _ :: l => countWrites l + 1
  | BusEvent.blockRead _ _ _ _ :: l => countWrites l

/-- countReads: number of `read_i2c_block_data` transactions attempted so far. -/
def countReads : List BusEvent → Nat
  | [] => 0
  | BusEvent.busOpen _ :: l => countReads l
  | BusEvent.quickWrite _ _ :: l => countReads l
  | BusEvent.blockWrite _ _ _ _ :: l => countReads l
  | BusEvent.blockRead _ _ _ _ :: l => countReads l + 1

/-- Transport: the `smbus2` oracle.  Each field's first argument is the number
of transactions of that kind already attempted during the current top-level
call; `false`/`none` model the `OSError` the real library raises. -/
structure Transport where
  /-- `SMBus(channel)` succeeds. -/
  openOk : Nat → Nat → Bool
  /-- `write_quick(address)` on the given channel is acknowledged. -/
  quickOk : Nat → Nat → Nat → Bool
  /-- `write_i2c_block_data(address, reg, data)` succeeds. -/
  writeOk : Nat → Nat → Nat → Nat → List Nat → Bool
  /-- `read_i2c_block_data(address, reg, 2)` result: the two bytes, or `none`
  for an `OSError`. -/
  readRes : Nat → Nat → Nat → Nat → Option (Nat × Nat)

/-! ## Exception model -/

/-- PyExc: an exception value that can be caught and re-wrapped inside the
module (source lines 24–28 define `AdsReadException` and `AdsNotFound`;
`OSError` and `NameError` come from the runtime). -/
inductive PyExc where
  | adsNotFound (channel address : Nat)
  | nameError
  | osError
deriving DecidableEq

/-- PyError: an exception propagating out of a public entry point.  The source
only ever lets `AdsReadException` escape, but a bare `AdsNotFound` is included
so that "fails with `AdsNotFound`" is statable and distinguishable. -/
inductive PyError where
  | adsNotFound (channel address : Nat)
  | adsReadException (cause : PyExc)
deriving DecidableEq

/-! ## Data model -/

/-- Device: the constructor stores address, resolution and i2c_channel on
`self` (source lines 31–35). -/
structure Device where
  address : Nat
  resolution : ℚ
  i2c_channel : Nat

/-- Globals: the module-level bindings of the names `address`, `resolution`
and `i2c_channel`.  They exist only when the file runs as `__main__` (source
lines 163–167); `none` models an unbound name, whose use raises `NameError`. -/
structure Globals where
  address : Option Nat
  resolution : Option ℚ
  i2c_channel : Option Nat

/-! ## Core driver (source lines 37–133) -/

/-- read_channel configuration word (source lines 56–66): OR of all the fixed
configuration constants with the caller's multiplexer selection. -/
def read_channel_config (mux_config : Nat) : Nat :=
  ADS1115_CONFIG_OS_SINGLE |||
  mux_config |||
  ADS1115_CONFIG_PGA_4_096V |||
  ADS1115_CONFIG_MODE_SINGLE |||
  ADS1115_CONFIG_DR_128SPS |||
  ADS1115_CONFIG_CMODE_TRAD |||
  ADS1115_CONFIG_CPOL_ACTVLOW |||
  ADS1115_CONFIG_CLATCH_NONLAT |||
  ADS1115_CONFIG_CQUE_NONE

/-- read_channel configuration payload (source line 69): the two bytes
`[(config >> 8) & 0xFF, config & 0xFF]` passed to `write_i2c_block_data`. -/
def read_channel_data (mux_config : Nat) : List Nat :=
  [(read_channel_config mux_config >>> 8) &&& 0xFF, read_channel_config mux_config &&& 0xFF]

/-- Sign adjustment of the conversion result (source lines 78–82):
`value = (result[0] << 8) | result[1]; if value > 32767: value -= 65536`. -/
def to_signed_16 (value : Nat) : Int :=
  if value > 32767 then (value : Int) - 65536 else (value : Int)

/-- read_channel (source lines 55–88, the helper closure inside
`_read_logical_port`): write the configuration word to the configuration
register, wait, read two bytes from the conversion register, sign-adjust, and
multiply by the resolution.  A transport failure on either transaction is the
`OSError` that the enclosing `try` of `_read_logical_port` catches, modelled
as `Except.error ()`.  The fixed 100 ms `time.sleep` has no observable effect
in this model and is elided. -/
def read_channel (t : Transport) (log : List BusEvent) (bus address : Nat)
    (resolution : ℚ) (mux_config : Nat) : List BusEvent × Except Unit ℚ :=
  let data := read_channel_data mux_config
  let log1 := log ++ [BusEvent.blockWrite bus address ADS1115_POINTER_CONFIG data]
  if t.writeOk (countWrites log) bus address ADS1115_POINTER_CONFIG data then
    let log2 := log1 ++ [BusEvent.blockRead bus address ADS1115_POINTER_CONVERT 2]
    match t.readRes (countReads log) bus address ADS1115_POINTER_CONVERT with
    | some (r0, r1) =>
        (log2, Except.ok ((to_signed_16 ((r0 <<< 8) ||| r1) : ℚ) * resolution))
    | none => (log2, Except.error ())
  else (log1, Except.error ())

/-- `Device._read_logical_port` (source lines 37–102).  Opens the bus and
reads the four channels in order 0, 1, 2, 3 through `read_channel`; the
enclosing `try … except Exception` turns ANY failure into a normal return of
the empty list, so the return type carries no error at all.  Note the source
name starts with an underscore, dropped here. -/
def read_logical_port (t : Transport) (log : List BusEvent) (address : Nat)
    (resolution : ℚ) (i2c_channel : Nat) : List BusEvent × List ℚ :=
  let n := countOpens log
  let log := log ++ [BusEvent.busOpen i2c_channel]
  if t.openOk n i2c_channel then
    match read_channel t log i2c_channel address resolution ADS1115_CONFIG_MUX_SINGLE_0 with
    | (log1, Except.error _) => (log1, [])
    | (log1, Except.ok v0) =>
      match read_channel t log1 i2c_channel address resolution ADS1115_CONFIG_MUX_SINGLE_1 with
      | (log2, Except.error _) => (log2, [])
      | (log2, Except.ok v1) =>
        match read_channel t log2 i2c_channel address resolution ADS1115_CONFIG_MUX_SINGLE_2 with
        | (log3, Except.error _) => (log3, [])
        | (log3, Except.ok v2) =>
          match read_channel t log3 i2c_channel address resolution ADS1115_CONFIG_MUX_SINGLE_3 with
          | (log4, Except.error _) => (log4, [])
          | (log4, Except.ok v3) => (log4, [v0, v1, v2, v3])
  else (log, [])

/-- `Device._check_if_device_exists` (source lines 104–125): open the bus and
issue `write_quick(address)`; `True` on acknowledge, `False` on `OSError`
(from either the open or the quick write).  Note the source name starts with
an underscore, dropped here. -/
def check_if_device_exists (t : Transport) (log : List BusEvent)
    (i2c_channel address : Nat) : List BusEvent × Bool :=
  let n := countOpens log
  let log := log ++ [BusEvent.busOpen i2c_channel]
  if t.openOk n i2c_channel then
    let q := countQuicks log
    let log := log ++ [BusEvent.quickWrite i2c_channel address]
    (log, t.quickOk q i2c_channel address)
  else (log, false)

/-- `Device.read` (source lines 127–133).  The presence check uses
`self.i2c_channel`/`self.address`, but the success branch calls
`self._read_logical_port(address, resolution, i2c_channel)` and the
`AdsNotFound` message interpolates `i2c_channel`/`address` — all four of those
are the BARE names, i.e. module globals, not `self` fields; an unbound global
raises `NameError`.  The `except Exception` clause re-raises everything
(including the module's own `AdsNotFound`) as `AdsReadException`. -/
def Device.read (self : Device) (g : Globals) (t : Transport) :
    List BusEvent × Except PyError (List ℚ) :=
  match check_if_device_exists t [] self.i2c_channel self.address with
  | (log, true) =>
    match g.address, g.resolution, g.i2c_channel with
    | some address, some resolution, some i2c_channel =>
      let p := read_logical_port t log address resolution i2c_channel
      (p.1, Except.ok p.2)
    | _, _, _ => (log, Except.error (PyError.adsReadException PyExc.nameError))
  | (log, false) =>
    match g.i2c_channel, g.address with
    | some i2c_channel, some address =>
      (log, Except.error (PyError.adsReadException (PyExc.adsNotFound i2c_channel address)))
    | _, _ => (log, Except.error (PyError.adsReadException PyExc.nameError))

/-- `search_i2c_memory` (source lines 136–157): open the bus, probe every
address in `range(0x03, 0x78)` with `write_quick` (an `OSError` per address is
silently skipped), collect responders in probe order.  A non-empty list is
returned as is; an empty one becomes `None`.  Failure to open the bus escapes
the inner loop and is re-raised as `AdsReadException`. -/
def search_i2c_memory (t : Transport) (i2c_channel : Nat) :
    Except PyError (Option (List Nat)) :=
  if t.openOk 0 i2c_channel then
    let available_devices :=
      (List.range' 0x03 0x75).foldl
        (fun acc address =>
          if t.quickOk (address - 0x03) i2c_channel address then acc ++ [address] else acc)
        []
    if available_devices.isEmpty then Except.ok none
    else Except.ok (some available_devices)
  else Except.error (PyError.adsReadException PyExc.osError)

/-! ## Spec-side definitions and instrumentation -/

/-- Multiplexer constant used for each channel of the read cycle, exactly as
`_read_logical_port` passes them (source lines 94–97). -/
def channelMux : Fin 4 → Nat
  | 0 => ADS1115_CONFIG_MUX_SINGLE_0
  | 1 => ADS1115_CONFIG_MUX_SINGLE_1
  | 2 => ADS1115_CONFIG_MUX_SINGLE_2
  | 3 => ADS1115_CONFIG_MUX_SINGLE_3

/-- Configuration word for channel `c` as the SPEC words it:
`0x8000 | (0x4000 + c*0x1000) | 0x0200 | 0x0100 | 0x0080 | 0x0003`.
This is the spec-side formula, to be compared with `read_channel_config`. -/
def specConfigWord (c : Fin 4) : Nat :=
  0x8000 ||| (0x4000 + (c : Nat) * 0x1000) ||| 0x0200 ||| 0x0100 ||| 0x0080 ||| 0x0003

/-- readCycleOk: instrumentation predicate — `true` iff, starting from event
log `log`, every transaction of the four-channel read cycle (one bus open,
then a configuration write and a conversion read per channel) would succeed.
Its transaction indices mirror those `read_logical_port` consults. -/
def readCycleOk (t : Transport) (log : List BusEvent) (address i2c_channel : Nat) : Bool :=
  t.openOk (countOpens log) i2c_channel &&
  (t.writeOk (countWrites log) i2c_channel address ADS1115_POINTER_CONFIG
      (read_channel_data ADS1115_CONFIG_MUX_SINGLE_0) &&
    (t.readRes (countReads log) i2c_channel address ADS1115_POINTER_CONVERT).isSome &&
    t.writeOk (countWrites log + 1) i2c_channel address ADS1115_POINTER_CONFIG
      (read_channel_data ADS1115_CONFIG_MUX_SINGLE_1) &&
    (t.readRes (countReads log + 1) i2c_channel address ADS1115_POINTER_CONVERT).isSome &&
    t.writeOk (countWrites log + 2) i2c_channel address ADS1115_POINTER_CONFIG
      (read_channel_data ADS1115_CONFIG_MUX_SINGLE_2) &&
    (t.readRes (countReads log + 2) i2c_channel address ADS1115_POINTER_CONVERT).isSome &&
    t.writeOk (countWrites log + 3) i2c_channel address ADS1115_POINTER_CONFIG
      (read_channel_data ADS1115_CONFIG_MUX_SINGLE_3) &&
    (t.readRes (countReads log + 3) i2c_channel address ADS1115_POINTER_CONVERT).isSome)

/-! ## Concrete fixtures used by witnesses and counterexamples -/

/-- Fixture for C1: a fully coöperative transport whose conversion register
always reads back bytes `(0x00, 0x01)`, i.e. raw value 1. -/
def t1 : Transport :=
  ⟨fun _ _ => true, fun _ _ _ => true, fun _ _ _ _ _ => true, fun _ _ _ _ => some (0, 1)⟩

/-- Fixture for C1: a device constructed with address 0x49, resolution 2,
bus channel 1. -/
def d1 : Device := ⟨0x49, 2, 1⟩

/-- Fixture for C1: module globals binding address 0x48, resolution 3,
bus channel 0 (the values the `__main__` example wiring uses, except for the
resolution, chosen distinct so provenance is visible). -/
def g1 : Globals := ⟨some 0x48, some 3, some 0⟩

/-- Fixture for C2: a transport that acknowledges everything except the THIRD
configuration write (index 2, i.e. channel 2), so channels 0 and 1 read
successfully and channel 2 fails. -/
def t2 : Transport :=
  ⟨fun _ _ => true, fun _ _ _ => true, fun i _ _ _ _ => i != 2, fun _ _ _ _ => some (0, 0)⟩

/-- Fixture for C2: device matching the module globals `g2`. -/
def d2 : Device := ⟨0x48, 1, 0⟩

/-- Fixture for C2: module globals agreeing with `d2`. -/
def g2 : Globals := ⟨some 0x48, some 1, some 0⟩

/-- Fixture for C3: a transport whose bus opens but where no address ever
acknowledges a quick write (the probe reports every device absent). -/
def t3 : Transport :=
  ⟨fun _ _ => true, fun _ _ _ => false, fun _ _ _ _ _ => true, fun _ _ _ _ => some (0, 0)⟩

/-- Fixture for C3: a device whose own fields (0x49, 1, 1) differ from the
module globals `g3`. -/
def d3 : Device := ⟨0x49, 1, 1⟩

/-- Fixture for C3: module globals binding address 0x48, resolution 1,
bus channel 0. -/
def g3 : Globals := ⟨some 0x48, some 1, some 0⟩

/-- Fixture for C5/C6: a fully coöperative transport whose conversion
register always reads back bytes `(0x00, 0x00)`. -/
def t6 : Transport :=
  ⟨fun _ _ => true, fun _ _ _ => true, fun _ _ _ _ _ => true, fun _ _ _ _ => some (0, 0)⟩

/-- Fixture for C7: a transport whose bus opens but where no address
acknowledges a quick write. -/
def t7 : Transport :=
  ⟨fun _ _ => true, fun _ _ _ => false, fun _ _ _ _ _ => true, fun _ _ _ _ => some (0, 0)⟩

/-- Fixture for C8: a transport acknowledging quick writes exactly at
addresses 0x48 and 0x49. -/
def t8 : Transport :=
  ⟨fun _ _ => true, fun _ _ a => a == 0x48 || a == 0x49, fun _ _ _ _ _ => true,
    fun _ _ _ _ => some (0, 0)⟩

/-- Fixture for C10: a transport that opens and acknowledges quick writes but
fails every block write. -/
def t10 : Transport :=
  ⟨fun _ _ => true, fun _ _ _ => true, fun _ _ _ _ _ => false, fun _ _ _ _ => some (0, 0)⟩

/-- Fixture for C10: device matching the module globals `g10`. -/
def d10 : Device := ⟨0x48, 1, 0⟩

/-- Fixture for C10: module globals agreeing with `d10`. -/
def g10 : Globals := ⟨some 0x48, some 1, some 0⟩

/-! ## Counting lemmas -/

@[simp] theorem countOpens_nil : countOpens [] = 0 := rfl

@[simp] theorem countOpens_busOpen (c : Nat) (l : List BusEvent) :
    countOpens (BusEvent.busOpen c :: l) = countOpens l + 1 := rfl

@[simp] theorem countOpens_quickWrite (c a : Nat) (l : List BusEvent) :
    countOpens (BusEvent.quickWrite c a :: l) = countOpens l := rfl

@[simp] theorem countOpens_blockWrite (c a r : Nat) (d : List Nat) (l : List BusEvent) :
    countOpens (BusEvent.blockWrite c a r d :: l) = countOpens l := rfl

@[simp] theorem countOpens_blockRead (c a r n : Nat) (l : List BusEvent) :
    countOpens (BusEvent.blockRead c a r n :: l) = countOpens l := rfl

@[simp] theorem countOpens_append (l1 l2 : List BusEvent) :
    countOpens (l1 ++ l2) = countOpens l1 + countOpens l2 := by
  induction l1 with
  | nil => simp
  | cons e l ih => cases e <;> (simp [ih]; try omega)

@[simp] theorem countQuicks_nil : countQuicks [] = 0 := rfl

@[simp] theorem countQuicks_busOpen (c : Nat) (l : List BusEvent) :
    countQuicks (BusEvent.busOpen c :: l) = countQuicks l := rfl

@[simp] theorem countQuicks_quickWrite (c a : Nat) (l : List BusEvent) :
    countQuicks (BusEvent.quickWrite c a :: l) = countQuicks l + 1 := rfl

@[simp] theorem countQuicks_blockWrite (c a r : Nat) (d : List Nat) (l : List BusEvent) :
    countQuicks (BusEvent.blockWrite c a r d :: l) = countQuicks l := rfl

@[simp] theorem countQuicks_blockRead (c a r n : Nat) (l : List BusEvent) :
    countQuicks (BusEvent.blockRead c a r n :: l) = countQuicks l := rfl

@[simp] theorem countQuicks_append (l1 l2 : List BusEvent) :
    countQuicks (l1 ++ l2) = countQuicks l1 + countQuicks l2 := by
  induction l1 with
  | nil => simp
  | cons e l ih => cases e <;> (simp [ih]; try omega)

@[simp] theorem countWrites_nil : countWrites [] = 0 := rfl

@[simp] theorem countWrites_busOpen (c : Nat) (l : List BusEvent) :
    countWrites (BusEvent.busOpen c :: l) = countWrites l := rfl

@[simp] theorem countWrites_quickWrite (c a : Nat) (l : List BusEvent) :
    countWrites (BusEvent.quickWrite c a :: l) = countWrites l := rfl

@[simp] theorem countWrites_blockWrite (c a r : Nat) (d : List Nat) (l : List BusEvent) :
    countWrites (BusEvent.blockWrite c a r d :: l) = countWrites l + 1 := rfl

@[simp] theorem countWrites_blockRead (c a r n : Nat) (l : List BusEvent) :
    countWrites (BusEvent.blockRead c a r n :: l) = countWrites l := rfl

@[simp] theorem countWrites_append (l1 l2 : List BusEvent) :
    countWrites (l1 ++ l2) = countWrites l1 + countWrites l2 := by
  induction l1 with
  | nil => simp
  | cons e l ih => cases e <;> (simp [ih]; try omega)

@[simp] theorem countReads_nil : countReads [] = 0 := rfl

@[simp] theorem countReads_busOpen (c : Nat) (l : List BusEvent) :
    countReads (BusEvent.busOpen c :: l) = countReads l := rfl

@[simp] theorem countReads_quickWrite (c a : Nat) (l : List BusEvent) :
    countReads (BusEvent.quickWrite c a :: l) = countReads l := rfl

@[simp] theorem countReads_blockWrite (c a r : Nat) (d : List Nat) (l : List BusEvent) :
    countReads (BusEvent.blockWrite c a r d :: l) = countReads l := rfl

@[simp] theorem countReads_blockRead (c a r n : Nat) (l : List BusEvent) :
    countReads (BusEvent.blockRead c a r n :: l) = countReads l + 1 := rfl

@[simp] theorem countReads_append (l1 l2 : List BusEvent) :
    countReads (l1 ++ l2) = countReads l1 + countReads l2 := by
  induction l1 with
  | nil => simp
  | cons e l ih => cases e <;> (simp [ih]; try omega)

/-! ## Evaluation lemmas for the driver functions -/

/-- read_channel on a successful write and read. -/
theorem read_channel_ok (t : Transport) (log : List BusEvent) (bus address : Nat)
    (resolution : ℚ) (mux_config : Nat) (r0 r1 : Nat)
    (hw : t.writeOk (countWrites log) bus address ADS1115_POINTER_CONFIG
      (read_channel_data mux_config) = true)
    (hr : t.readRes (countReads log) bus address ADS1115_POINTER_CONVERT = some (r0, r1)) :
    read_channel t log bus address resolution mux_config =
      (log ++ [BusEvent.blockWrite bus address ADS1115_POINTER_CONFIG
          (read_channel_data mux_config),
        BusEvent.blockRead bus address ADS1115_POINTER_CONVERT 2],
       Except.ok ((to_signed_16 ((r0 <<< 8) ||| r1) : ℚ) * resolution)) := by
  simp only [read_channel]
  rw [hw, hr]
  simp

/-- read_channel on a failed configuration write. -/
theorem read_channel_err_write (t : Transport) (log : List BusEvent) (bus address : Nat)
    (resolution : ℚ) (mux_config : Nat)
    (hw : t.writeOk (countWrites log) bus address ADS1115_POINTER_CONFIG
      (read_channel_data mux_config) = false) :
    read_channel t log bus address resolution mux_config =
      (log ++ [BusEvent.blockWrite bus address ADS1115_POINTER_CONFIG
          (read_channel_data mux_config)],
       Except.error ()) := by
  simp only [read_channel]
  rw [hw]
  simp

/-- read_channel on a successful write but failed conversion read. -/
theorem read_channel_err_read (t : Transport) (log : List BusEvent) (bus address : Nat)
    (resolution : ℚ) (mux_config : Nat)
    (hw : t.writeOk (countWrites log) bus address ADS1115_POINTER_CONFIG
      (read_channel_data mux_config) = true)
    (hr : t.readRes (countReads log) bus address ADS1115_POINTER_CONVERT = none) :
    read_channel t log bus address resolution mux_config =
      (log ++ [BusEvent.blockWrite bus address ADS1115_POINTER_CONFIG
          (read_channel_data mux_config),
        BusEvent.blockRead bus address ADS1115_POINTER_CONVERT 2],
       Except.error ()) := by
  simp only [read_channel]
  rw [hw, hr]
  simp

/-- read_logical_port when every transaction of the cycle succeeds: the four
channels are read in order 0, 1, 2, 3, and each voltage is the sign-adjusted
raw value times the resolution. -/
theorem read_logical_port_ok (t : Transport) (log : List BusEvent) (address : Nat)
    (resolution : ℚ) (i2c_channel : Nat) (b00 b01 b10 b11 b20 b21 b30 b31 : Nat)
    (hopen : t.openOk (countOpens log) i2c_channel = true)
    (hw0 : t.writeOk (countWrites log) i2c_channel address ADS1115_POINTER_CONFIG
      (read_channel_data ADS1115_CONFIG_MUX_SINGLE_0) = true)
    (hd0 : t.readRes (countReads log) i2c_channel address ADS1115_POINTER_CONVERT =
      some (b00, b01))
    (hw1 : t.writeOk (countWrites log + 1) i2c_channel address ADS1115_POINTER_CONFIG
      (read_channel_data ADS1115_CONFIG_MUX_SINGLE_1) = true)
    (hd1 : t.readRes (countReads log + 1) i2c_channel address ADS1115_POINTER_CONVERT =
      some (b10, b11))
    (hw2 : t.writeOk (countWrites log + 2) i2c_channel address ADS1115_POINTER_CONFIG
      (read_channel_data ADS1115_CONFIG_MUX_SINGLE_2) = true)
    (hd2 : t.readRes (countReads log + 2) i2c_channel address ADS1115_POINTER_CONVERT =
      some (b20, b21))
    (hw3 : t.writeOk (countWrites log + 3) i2c_channel address ADS1115_POINTER_CONFIG
      (read_channel_data ADS1115_CONFIG_MUX_SINGLE_3) = true)
    (hd3 : t.readRes (countReads log + 3) i2c_channel address ADS1115_POINTER_CONVERT =
      some (b30, b31)) :
    read_logical_port t log address resolution i2c_channel =
      (log ++ [BusEvent.busOpen i2c_channel,
        BusEvent.blockWrite i2c_channel address ADS1115_POINTER_CONFIG
          (read_channel_data ADS1115_CONFIG_MUX_SINGLE_0),
        BusEvent.blockRead i2c_channel address ADS1115_POINTER_CONVERT 2,
        BusEvent.blockWrite i2c_channel address ADS1115_POINTER_CONFIG
          (read_channel_data ADS1115_CONFIG_MUX_SINGLE_1),
        BusEvent.blockRead i2c_channel address ADS1115_POINTER_CONVERT 2,
        BusEvent.blockWrite i2c_channel address ADS1115_POINTER_CONFIG
          (read_channel_data ADS1115_CONFIG_MUX_SINGLE_2),
        BusEvent.blockRead i2c_channel address ADS1115_POINTER_CONVERT 2,
        BusEvent.blockWrite i2c_channel address ADS1115_POINTER_CONFIG
          (read_channel_data ADS1115_CONFIG_MUX_SINGLE_3),
        BusEvent.blockRead i2c_channel address ADS1115_POINTER_CONVERT 2],
       [(to_signed_16 ((b00 <<< 8) ||| b01) : ℚ) * resolution,
        (to_signed_16 ((b10 <<< 8) ||| b11) : ℚ) * resolution,
        (to_signed_16 ((b20 <<< 8) ||| b21) : ℚ) * resolution,
        (to_signed_16 ((b30 <<< 8) ||| b31) : ℚ) * resolution]) := by
  have hw0' : t.writeOk (countWrites (log ++ [BusEvent.busOpen i2c_channel]))
      i2c_channel address ADS1115_POINTER_CONFIG
      (read_channel_data ADS1115_CONFIG_MUX_SINGLE_0) = true := by simpa using hw0
  have hd0' : t.readRes (countReads (log ++ [BusEvent.busOpen i2c_channel]))
      i2c_channel address ADS1115_POINTER_CONVERT = some (b00, b01) := by simpa using hd0
  simp only [read_logical_port]
  rw [hopen]
  simp only [if_true]
  rw [read_channel_ok t _ i2c_channel address resolution _ b00 b01 hw0' hd0']
  dsimp only
  have hw1' : t.writeOk
      (countWrites ((log ++ [BusEvent.busOpen i2c_channel]) ++
        [BusEvent.blockWrite i2c_channel address ADS1115_POINTER_CONFIG
          (read_channel_data ADS1115_CONFIG_MUX_SINGLE_0),
         BusEvent.blockRead i2c_channel address ADS1115_POINTER_CONVERT 2]))
      i2c_channel address ADS1115_POINTER_CONFIG
      (read_channel_data ADS1115_CONFIG_MUX_SINGLE_1) = true := by simpa using hw1
  have hd1' : t.readRes
      (countReads ((log ++ [BusEvent.busOpen i2c_channel]) ++
        [BusEvent.blockWrite i2c_channel address ADS1115_POINTER_CONFIG
          (read_channel_data ADS1115_CONFIG_MUX_SINGLE_0),
         BusEvent.blockRead i2c_channel address ADS1115_POINTER_CONVERT 2]))
      i2c_channel address ADS1115_POINTER_CONVERT = some (b10, b11) := by simpa using hd1
  rw [read_channel_ok t _ i2c_channel address resolution _ b10 b11 hw1' hd1']
  dsimp only
  have hw2' : t.writeOk
      (countWrites (((log ++ [BusEvent.busOpen i2c_channel]) ++
        [BusEvent.blockWrite i2c_channel address ADS1115_POINTER_CONFIG
          (read_channel_data ADS1115_CONFIG_MUX_SINGLE_0),
         BusEvent.blockRead i2c_channel address ADS1115_POINTER_CONVERT 2]) ++
        [BusEvent.blockWrite i2c_channel address ADS1115_POINTER_CONFIG
          (read_channel_data ADS1115_CONFIG_MUX_SINGLE_1),
         BusEvent.blockRead i2c_channel address ADS1115_POINTER_CONVERT 2]))
      i2c_channel address ADS1115_POINTER_CONFIG
      (read_channel_data ADS1115_CONFIG_MUX_SINGLE_2) = true := by
    simpa [Nat.add_assoc] using hw2
  have hd2' : t.readRes
      (countReads (((log ++ [BusEvent.busOpen i2c_channel]) ++
        [BusEvent.blockWrite i2c_channel address ADS1115_POINTER_CONFIG
          (read_channel_data ADS1115_CONFIG_MUX_SINGLE_0),
         BusEvent.blockRead i2c_channel address ADS1115_POINTER_CONVERT 2]) ++
        [BusEvent.blockWrite i2c_channel address ADS1115_POINTER_CONFIG
          (read_channel_data ADS1115_CONFIG_MUX_SINGLE_1),
         BusEvent.blockRead i2c_channel address ADS1115_POINTER_CONVERT 2]))
      i2c_channel address ADS1115_POINTER_CONVERT = some (b20, b21) := by
    simpa [Nat.add_assoc] using hd2
  rw [read_channel_ok t _ i2c_channel address resolution _ b20 b21 hw2' hd2']
  dsimp only
  have hw3' : t.writeOk
      (countWrites ((((log ++ [BusEvent.busOpen i2c_channel]) ++
        [BusEvent.blockWrite i2c_channel address ADS1115_POINTER_CONFIG
          (read_channel_data ADS1115_CONFIG_MUX_SINGLE_0),
         BusEvent.blockRead i2c_channel address ADS1115_POINTER_CONVERT 2]) ++
        [BusEvent.blockWrite i2c_channel address ADS1115_POINTER_CONFIG
          (read_channel_data ADS1115_CONFIG_MUX_SINGLE_1),
         BusEvent.blockRead i2c_channel address ADS1115_POINTER_CONVERT 2]) ++
        [BusEvent.blockWrite i2c_channel address ADS1115_POINTER_CONFIG
          (read_channel_data ADS1115_CONFIG_MUX_SINGLE_2),
         BusEvent.blockRead i2c_channel address ADS1115_POINTER_CONVERT 2]))
      i2c_channel address ADS1115_POINTER_CONFIG
      (read_channel_data ADS1115_CONFIG_MUX_SINGLE_3) = true := by
    simpa [Nat.add_assoc] using hw3
  have hd3' : t.readRes
      (countReads ((((log ++ [BusEvent.busOpen i2c_channel]) ++
        [BusEvent.blockWrite i2c_channel address ADS1115_POINTER_CONFIG
          (read_channel_data ADS1115_CONFIG_MUX_SINGLE_0),
         BusEvent.blockRead i2c_channel address ADS1115_POINTER_CONVERT 2]) ++
        [BusEvent.blockWrite i2c_channel address ADS1115_POINTER_CONFIG
          (read_channel_data ADS1115_CONFIG_MUX_SINGLE_1),
         BusEvent.blockRead i2c_channel address ADS1115_POINTER_CONVERT 2]) ++
        [BusEvent.blockWrite i2c_channel address ADS1115_POINTER_CONFIG
          (read_channel_data ADS1115_CONFIG_MUX_SINGLE_2),
         BusEvent.blockRead i2c_channel address ADS1115_POINTER_CONVERT 2]))
      i2c_channel address ADS1115_POINTER_CONVERT = some (b30, b31) := by
    simpa [Nat.add_assoc] using hd3
  rw [read_channel_ok t _ i2c_channel address resolution _ b30 b31 hw3' hd3']
  dsimp only
  simp

/-- read_logical_port returns the empty list whenever any transaction of the
cycle (the bus open, a configuration write, or a conversion read) fails. -/
theorem read_logical_port_fail (t : Transport) (log : List BusEvent) (address : Nat)
    (resolution : ℚ) (i2c_channel : Nat)
    (h : readCycleOk t log address i2c_channel = false) :
    (read_logical_port t log address resolution i2c_channel).2 = [] := by
  simp only [read_logical_port]
  cases hopen : t.openOk (countOpens log) i2c_channel with
  | false => simp
  | true =>
    simp only [if_true]
    cases hw0 : t.writeOk (countWrites log) i2c_channel address ADS1115_POINTER_CONFIG
        (read_channel_data ADS1115_CONFIG_MUX_SINGLE_0) with
    | false =>
      have hw0' : t.writeOk (countWrites (log ++ [BusEvent.busOpen i2c_channel]))
          i2c_channel address ADS1115_POINTER_CONFIG
          (read_channel_data ADS1115_CONFIG_MUX_SINGLE_0) = false := by simpa using hw0
      rw [read_channel_err_write t _ i2c_channel address resolution _ hw0']
    | true =>
      have hw0' : t.writeOk (countWrites (log ++ [BusEvent.busOpen i2c_channel]))
          i2c_channel address ADS1115_POINTER_CONFIG
          (read_channel_data ADS1115_CONFIG_MUX_SINGLE_0) = true := by simpa using hw0
      cases hd0 : t.readRes (countReads log) i2c_channel address ADS1115_POINTER_CONVERT with
      | none =>
        have hd0' : t.readRes (countReads (log ++ [BusEvent.busOpen i2c_channel]))
            i2c_channel address ADS1115_POINTER_CONVERT = none := by simpa using hd0
        rw [read_channel_err_read t _ i2c_channel address resolution _ hw0' hd0']
      | some p0 =>
        obtain ⟨b00, b01⟩ := p0
        have hd0' : t.readRes (countReads (log ++ [BusEvent.busOpen i2c_channel]))
            i2c_channel address ADS1115_POINTER_CONVERT = some (b00, b01) := by simpa using hd0
        rw [read_channel_ok t _ i2c_channel address resolution _ b00 b01 hw0' hd0']
        dsimp only
        cases hw1 : t.writeOk (countWrites log + 1) i2c_channel address ADS1115_POINTER_CONFIG
            (read_channel_data ADS1115_CONFIG_MUX_SINGLE_1) with
        | false =>
          have hw1' : t.writeOk
              (countWrites ((log ++ [BusEvent.busOpen i2c_channel]) ++
                [BusEvent.blockWrite i2c_channel address ADS1115_POINTER_CONFIG
                  (read_channel_data ADS1115_CONFIG_MUX_SINGLE_0),
                 BusEvent.blockRead i2c_channel address ADS1115_POINTER_CONVERT 2]))
              i2c_channel address ADS1115_POINTER_CONFIG
              (read_channel_data ADS1115_CONFIG_MUX_SINGLE_1) = false := by simpa using hw1
          rw [read_channel_err_write t _ i2c_channel address resolution _ hw1']
        | true =>
          have hw1' : t.writeOk
              (countWrites ((log ++ [BusEvent.busOpen i2c_channel]) ++
                [BusEvent.blockWrite i2c_channel address ADS1115_POINTER_CONFIG
                  (read_channel_data ADS1115_CONFIG_MUX_SINGLE_0),
                 BusEvent.blockRead i2c_channel address ADS1115_POINTER_CONVERT 2]))
              i2c_channel address ADS1115_POINTER_CONFIG
              (read_channel_data ADS1115_CONFIG_MUX_SINGLE_1) = true := by simpa using hw1
          cases hd1 : t.readRes (countReads log + 1) i2c_channel address
              ADS1115_POINTER_CONVERT with
          | none =>
            have hd1' : t.readRes
                (countReads ((log ++ [BusEvent.busOpen i2c_channel]) ++
                  [BusEvent.blockWrite i2c_channel address ADS1115_POINTER_CONFIG
                    (read_channel_data ADS1115_CONFIG_MUX_SINGLE_0),
                   BusEvent.blockRead i2c_channel address ADS1115_POINTER_CONVERT 2]))
                i2c_channel address ADS1115_POINTER_CONVERT = none := by simpa using hd1
            rw [read_channel_err_read t _ i2c_channel address resolution _ hw1' hd1']
          | some p1 =>
            obtain ⟨b10, b11⟩ := p1
            have hd1' : t.readRes
                (countReads ((log ++ [BusEvent.busOpen i2c_channel]) ++
                  [BusEvent.blockWrite i2c_channel address ADS1115_POINTER_CONFIG
                    (read_channel_data ADS1115_CONFIG_MUX_SINGLE_0),
                   BusEvent.blockRead i2c_channel address ADS1115_POINTER_CONVERT 2]))
                i2c_channel address ADS1115_POINTER_CONVERT = some (b10, b11) := by
              simpa using hd1
            rw [read_channel_ok t _ i2c_channel address resolution _ b10 b11 hw1' hd1']
            dsimp only
            cases hw2 : t.writeOk (countWrites log + 2) i2c_channel address
                ADS1115_POINTER_CONFIG (read_channel_data ADS1115_CONFIG_MUX_SINGLE_2) with
            | false =>
              have hw2' : t.writeOk
                  (countWrites (((log ++ [BusEvent.busOpen i2c_channel]) ++
                    [BusEvent.blockWrite i2c_channel address ADS1115_POINTER_CONFIG
                      (read_channel_data ADS1115_CONFIG_MUX_SINGLE_0),
                     BusEvent.blockRead i2c_channel address ADS1115_POINTER_CONVERT 2]) ++
                    [BusEvent.blockWrite i2c_channel address ADS1115_POINTER_CONFIG
                      (read_channel_data ADS1115_CONFIG_MUX_SINGLE_1),
                     BusEvent.blockRead i2c_channel address ADS1115_POINTER_CONVERT 2]))
                  i2c_channel address ADS1115_POINTER_CONFIG
                  (read_channel_data ADS1115_CONFIG_MUX_SINGLE_2) = false := by
                simpa [Nat.add_assoc] using hw2
              rw [read_channel_err_write t _ i2c_channel address resolution _ hw2']
            | true =>
              have hw2' : t.writeOk
                  (countWrites (((log ++ [BusEvent.busOpen i2c_channel]) ++
                    [BusEvent.blockWrite i2c_channel address ADS1115_POINTER_CONFIG
                      (read_channel_data ADS1115_CONFIG_MUX_SINGLE_0),
                     BusEvent.blockRead i2c_channel address ADS1115_POINTER_CONVERT 2]) ++
                    [BusEvent.blockWrite i2c_channel address ADS1115_POINTER_CONFIG
                      (read_channel_data ADS1115_CONFIG_MUX_SINGLE_1),
                     BusEvent.blockRead i2c_channel address ADS1115_POINTER_CONVERT 2]))
                  i2c_channel address ADS1115_POINTER_CONFIG
                  (read_channel_data ADS1115_CONFIG_MUX_SINGLE_2) = true := by
                simpa [Nat.add_assoc] using hw2
              cases hd2 : t.readRes (countReads log + 2) i2c_channel address
                  ADS1115_POINTER_CONVERT with
              | none =>
                have hd2' : t.readRes
                    (countReads (((log ++ [BusEvent.busOpen i2c_channel]) ++
                      [BusEvent.blockWrite i2c_channel address ADS1115_POINTER_CONFIG
                        (read_channel_data ADS1115_CONFIG_MUX_SINGLE_0),
                       BusEvent.blockRead i2c_channel address ADS1115_POINTER_CONVERT 2]) ++
                      [BusEvent.blockWrite i2c_channel address ADS1115_POINTER_CONFIG
                        (read_channel_data ADS1115_CONFIG_MUX_SINGLE_1),
                       BusEvent.blockRead i2c_channel address ADS1115_POINTER_CONVERT 2]))
                    i2c_channel address ADS1115_POINTER_CONVERT = none := by
                  simpa [Nat.add_assoc] using hd2
                rw [read_channel_err_read t _ i2c_channel address resolution _ hw2' hd2']
              | some p2 =>
                obtain ⟨b20, b21⟩ := p2
                have hd2' : t.readRes
                    (countReads (((log ++ [BusEvent.busOpen i2c_channel]) ++
                      [BusEvent.blockWrite i2c_channel address ADS1115_POINTER_CONFIG
                        (read_channel_data ADS1115_CONFIG_MUX_SINGLE_0),
                       BusEvent.blockRead i2c_channel address ADS1115_POINTER_CONVERT 2]) ++
                      [BusEvent.blockWrite i2c_channel address ADS1115_POINTER_CONFIG
                        (read_channel_data ADS1115_CONFIG_MUX_SINGLE_1),
                       BusEvent.blockRead i2c_channel address ADS1115_POINTER_CONVERT 2]))
                    i2c_channel address ADS1115_POINTER_CONVERT = some (b20, b21) := by
                  simpa [Nat.add_assoc] using hd2
                rw [read_channel_ok t _ i2c_channel address resolution _ b20 b21 hw2' hd2']
                dsimp only
                cases hw3 : t.writeOk (countWrites log + 3) i2c_channel address
                    ADS1115_POINTER_CONFIG (read_channel_data ADS1115_CONFIG_MUX_SINGLE_3) with
                | false =>
                  have hw3' : t.writeOk
                      (countWrites ((((log ++ [BusEvent.busOpen i2c_channel]) ++
                        [BusEvent.blockWrite i2c_channel address ADS1115_POINTER_CONFIG
                          (read_channel_data ADS1115_CONFIG_MUX_SINGLE_0),
                         BusEvent.blockRead i2c_channel address ADS1115_POINTER_CONVERT 2]) ++
                        [BusEvent.blockWrite i2c_channel address ADS1115_POINTER_CONFIG
                          (read_channel_data ADS1115_CONFIG_MUX_SINGLE_1),
                         BusEvent.blockRead i2c_channel address ADS1115_POINTER_CONVERT 2]) ++
                        [BusEvent.blockWrite i2c_channel address ADS1115_POINTER_CONFIG
                          (read_channel_data ADS1115_CONFIG_MUX_SINGLE_2),
                         BusEvent.blockRead i2c_channel address ADS1115_POINTER_CONVERT 2]))
                      i2c_channel address ADS1115_POINTER_CONFIG
                      (read_channel_data ADS1115_CONFIG_MUX_SINGLE_3) = false := by
                    simpa [Nat.add_assoc] using hw3
                  rw [read_channel_err_write t _ i2c_channel address resolution _ hw3']
                | true =>
                  cases hd3 : t.readRes (countReads log + 3) i2c_channel address
                      ADS1115_POINTER_CONVERT with
                  | none =>
                    have hw3' : t.writeOk
                        (countWrites ((((log ++ [BusEvent.busOpen i2c_channel]) ++
                          [BusEvent.blockWrite i2c_channel address ADS1115_POINTER_CONFIG
                            (read_channel_data ADS1115_CONFIG_MUX_SINGLE_0),
                           BusEvent.blockRead i2c_channel address ADS1115_POINTER_CONVERT 2]) ++
                          [BusEvent.blockWrite i2c_channel address ADS1115_POINTER_CONFIG
                            (read_channel_data ADS1115_CONFIG_MUX_SINGLE_1),
                           BusEvent.blockRead i2c_channel address ADS1115_POINTER_CONVERT 2]) ++
                          [BusEvent.blockWrite i2c_channel address ADS1115_POINTER_CONFIG
                            (read_channel_data ADS1115_CONFIG_MUX_SINGLE_2),
                           BusEvent.blockRead i2c_channel address ADS1115_POINTER_CONVERT 2]))
                        i2c_channel address ADS1115_POINTER_CONFIG
                        (read_channel_data ADS1115_CONFIG_MUX_SINGLE_3) = true := by
                      simpa [Nat.add_assoc] using hw3
                    have hd3' : t.readRes
                        (countReads ((((log ++ [BusEvent.busOpen i2c_channel]) ++
                          [BusEvent.blockWrite i2c_channel address ADS1115_POINTER_CONFIG
                            (read_channel_data ADS1115_CONFIG_MUX_SINGLE_0),
                           BusEvent.blockRead i2c_channel address ADS1115_POINTER_CONVERT 2]) ++
                          [BusEvent.blockWrite i2c_channel address ADS1115_POINTER_CONFIG
                            (read_channel_data ADS1115_CONFIG_MUX_SINGLE_1),
                           BusEvent.blockRead i2c_channel address ADS1115_POINTER_CONVERT 2]) ++
                          [BusEvent.blockWrite i2c_channel address ADS1115_POINTER_CONFIG
                            (read_channel_data ADS1115_CONFIG_MUX_SINGLE_2),
                           BusEvent.blockRead i2c_channel address ADS1115_POINTER_CONVERT 2]))
                        i2c_channel address ADS1115_POINTER_CONVERT = none := by
                      simpa [Nat.add_assoc] using hd3
                    rw [read_channel_err_read t _ i2c_channel address resolution _ hw3' hd3']
                  | some p3 =>
                    exfalso
                    simp [readCycleOk, hopen, hw0, hd0, hw1, hd1, hw2, hd2, hw3, hd3] at h

/-- check_if_device_exists computed in closed form. -/
theorem check_if_device_exists_eq (t : Transport) (log : List BusEvent)
    (i2c_channel address : Nat) :
    check_if_device_exists t log i2c_channel address =
      if t.openOk (countOpens log) i2c_channel then
        (log ++ [BusEvent.busOpen i2c_channel, BusEvent.quickWrite i2c_channel address],
         t.quickOk (countQuicks log) i2c_channel address)
      else (log ++ [BusEvent.busOpen i2c_channel], false) := by
  unfold check_if_device_exists
  split <;> simp_all

/-- The first event read_channel appends to the log is always the block write
of its configuration payload to the configuration register. -/
theorem read_channel_fst (t : Transport) (log : List BusEvent) (bus address : Nat)
    (resolution : ℚ) (mux_config : Nat) :
    ∃ rest, (read_channel t log bus address resolution mux_config).1 =
      log ++ BusEvent.blockWrite bus address ADS1115_POINTER_CONFIG
        (read_channel_data mux_config) :: rest := by
  cases hw : t.writeOk (countWrites log) bus address ADS1115_POINTER_CONFIG
      (read_channel_data mux_config) with
  | false =>
    exact ⟨[], by rw [read_channel_err_write t log bus address resolution mux_config hw]⟩
  | true =>
    cases hr : t.readRes (countReads log) bus address ADS1115_POINTER_CONVERT with
    | none =>
      exact ⟨[BusEvent.blockRead bus address ADS1115_POINTER_CONVERT 2],
        by rw [read_channel_err_read t log bus address resolution mux_config hw hr]⟩
    | some p =>
      obtain ⟨r0, r1⟩ := p
      exact ⟨[BusEvent.blockRead bus address ADS1115_POINTER_CONVERT 2],
        by rw [read_channel_ok t log bus address resolution mux_config r0 r1 hw hr]⟩

/-- Device.read when the presence check succeeds and the module globals are
all bound: the result is an unconditional `Except.ok` of whatever
read_logical_port produces AT THE GLOBAL address/resolution/channel. -/
theorem device_read_probe_true (self : Device) (g : Globals) (t : Transport)
    (a : Nat) (r : ℚ) (c : Nat)
    (hga : g.address = some a) (hgr : g.resolution = some r) (hgc : g.i2c_channel = some c)
    (hopen : t.openOk 0 self.i2c_channel = true)
    (hquick : t.quickOk 0 self.i2c_channel self.address = true) :
    Device.read self g t =
      ((read_logical_port t [BusEvent.busOpen self.i2c_channel,
          BusEvent.quickWrite self.i2c_channel self.address] a r c).1,
       Except.ok (read_logical_port t [BusEvent.busOpen self.i2c_channel,
          BusEvent.quickWrite self.i2c_channel self.address] a r c).2) := by
  unfold Device.read
  rw [check_if_device_exists_eq]
  simp only [countOpens_nil, countQuicks_busOpen, countQuicks_nil, List.nil_append,
    hopen, if_true, hquick]
  rw [hga, hgr, hgc]

/-- Device.read when the presence check fails and the module globals
`i2c_channel`/`address` are bound: the `AdsNotFound` raised inside is wrapped
into `AdsReadException`, and the channel/address it carries are the GLOBAL
bindings. -/
theorem device_read_probe_false (self : Device) (g : Globals) (t : Transport)
    (gc ga : Nat) (hgc : g.i2c_channel = some gc) (hga : g.address = some ga)
    (hcheck : (check_if_device_exists t [] self.i2c_channel self.address).2 = false) :
    Device.read self g t =
      ((check_if_device_exists t [] self.i2c_channel self.address).1,
       Except.error (PyError.adsReadException (PyExc.adsNotFound gc ga))) := by
  unfold Device.read
  rcases hval : check_if_device_exists t [] self.i2c_channel self.address with ⟨log, b⟩
  cases b with
  | true => rw [hval] at hcheck; simp at hcheck
  | false =>
    dsimp only
    rw [hgc, hga]

/-- The presence check never attempts a block write. -/
theorem check_if_device_exists_no_write (t : Transport) (i2c_channel address : Nat) :
    countWrites (check_if_device_exists t [] i2c_channel address).1 = 0 := by
  rw [check_if_device_exists_eq]
  split <;> simp

/-- Folding the scanner's append step is filtering. -/
theorem foldl_append_filter (p : Nat → Bool) (l acc : List Nat) :
    l.foldl (fun acc a => if p a then acc ++ [a] else acc) acc = acc ++ l.filter p := by
  induction l generalizing acc with
  | nil => simp
  | cons x xs ih =>
    simp only [List.foldl_cons, List.filter_cons]
    cases hp : p x <;> simp [ih]

/-- search_i2c_memory computed in closed form. -/
theorem search_i2c_memory_eq (t : Transport) (i2c_channel : Nat) :
    search_i2c_memory t i2c_channel =
      if t.openOk 0 i2c_channel then
        if ((List.range' 0x03 0x75).filter
            (fun a => t.quickOk (a - 0x03) i2c_channel a)).isEmpty then Except.ok none
        else Except.ok (some ((List.range' 0x03 0x75).filter
            (fun a => t.quickOk (a - 0x03) i2c_channel a)))
      else Except.error (PyError.adsReadException PyExc.osError) := by
  unfold search_i2c_memory
  rw [foldl_append_filter (fun a => t.quickOk (a - 0x03) i2c_channel a)
    (List.range' 0x03 0x75) []]
  simp

/-- Big-endian byte pair assembly: `(b0 << 8) | b1` is `b0 * 256 + b1` when
`b1` is a byte (the two summands occupy disjoint bit ranges). -/
theorem shiftLeft_or_eq (b0 b1 : Nat) (h : b1 < 256) :
    (b0 <<< 8) ||| b1 = b0 * 256 + b1 := by
  calc (b0 <<< 8) ||| b1 = (2 ^ 8 * b0) ||| b1 := by rw [Nat.shiftLeft_eq, Nat.mul_comm]
    _ = 2 ^ 8 * b0 + b1 := (Nat.mul_add_lt_is_or h b0).symm
    _ = b0 * 256 + b1 := by ring_nf

/-! ## Claims -/

/-- C1: the claim says `read()` always operates on this instance's own
configured address, resolution and i2c_channel, never on any other binding of
those names.  The code violates it (a bug the spec itself flags): with
instance fields (0x49, 2, 1) and module globals (0x48, 3, 0), `read()` probes
at the instance's channel 1 / address 0x49, but then performs every register
transaction on bus 0 at address 0x48 and scales by resolution 3 — the
module-global bindings, not the instance's. -/
theorem C1_read_targets_module_globals :
    Device.read d1 g1 t1 =
      ([BusEvent.busOpen 1, BusEvent.quickWrite 1 0x49,
        BusEvent.busOpen 0,
        BusEvent.blockWrite 0 0x48 0x01 [0xC3, 0x83],
        BusEvent.blockRead 0 0x48 0x00 2,
        BusEvent.blockWrite 0 0x48 0x01 [0xD3, 0x83],
        BusEvent.blockRead 0 0x48 0x00 2,
        BusEvent.blockWrite 0 0x48 0x01 [0xE3, 0x83],
        BusEvent.blockRead 0 0x48 0x00 2,
        BusEvent.blockWrite 0 0x48 0x01 [0xF3, 0x83],
        BusEvent.blockRead 0 0x48 0x00 2],
       Except.ok [3, 3, 3, 3]) := by
  rw [device_read_probe_true d1 g1 t1 0x48 3 0 rfl rfl rfl rfl rfl]
  rw [read_logical_port_ok t1 [BusEvent.busOpen d1.i2c_channel,
    BusEvent.quickWrite d1.i2c_channel d1.address] 0x48 3 0
    0 1 0 1 0 1 0 1 rfl rfl rfl rfl rfl rfl rfl rfl rfl]
  norm_num [d1, to_signed_16, read_channel_data, read_channel_config,
    ADS1115_CONFIG_OS_SINGLE, ADS1115_CONFIG_MUX_SINGLE_0, ADS1115_CONFIG_MUX_SINGLE_1,
    ADS1115_CONFIG_MUX_SINGLE_2, ADS1115_CONFIG_MUX_SINGLE_3, ADS1115_CONFIG_PGA_4_096V,
    ADS1115_CONFIG_MODE_SINGLE, ADS1115_CONFIG_DR_128SPS, ADS1115_CONFIG_CMODE_TRAD,
    ADS1115_CONFIG_CPOL_ACTVLOW, ADS1115_CONFIG_CLATCH_NONLAT, ADS1115_CONFIG_CQUE_NONE,
    ADS1115_POINTER_CONFIG, ADS1115_POINTER_CONVERT]
  decide

/-- C2 (counterexample): with a transport that fails only the third channel's
configuration write, `Device.read` does NOT fail — it returns `Except.ok []`
as a normal result, so "the whole call fails (signals an error to the
caller)" is false (channels 0 and 1 had already been read and are
discarded). -/
theorem C2_counterexample_failure_returns_ok_empty :
    (Device.read d2 g2 t2).2 = Except.ok ([] : List ℚ) := by
  rfl

/-- C2 (amended): if the configuration write or the conversion read of any of
the 4 channels fails at the transport level, no partial channel list is
returned — the result is either empty or has all four channels — and on such
a failure the cycle yields the empty list (already-read channels are
discarded); but the call does not signal an error. -/
theorem C2_no_partial_results (t : Transport) (log : List BusEvent) (address : Nat)
    (resolution : ℚ) (i2c_channel : Nat) :
    ((read_logical_port t log address resolution i2c_channel).2 = [] ∨
      ∃ v0 v1 v2 v3,
        (read_logical_port t log address resolution i2c_channel).2 = [v0, v1, v2, v3]) ∧
    (readCycleOk t log address i2c_channel = false →
      (read_logical_port t log address resolution i2c_channel).2 = []) := by
  refine ⟨?_, read_logical_port_fail t log address resolution i2c_channel⟩
  cases hc : readCycleOk t log address i2c_channel with
  | false => exact Or.inl (read_logical_port_fail t log address resolution i2c_channel hc)
  | true =>
    unfold readCycleOk at hc
    simp only [Bool.and_eq_true] at hc
    obtain ⟨hopen, ⟨⟨⟨⟨⟨⟨⟨hw0, hd0⟩, hw1⟩, hd1⟩, hw2⟩, hd2⟩, hw3⟩, hd3⟩⟩ := hc
    rw [Option.isSome_iff_exists] at hd0 hd1 hd2 hd3
    obtain ⟨⟨b00, b01⟩, hd0⟩ := hd0
    obtain ⟨⟨b10, b11⟩, hd1⟩ := hd1
    obtain ⟨⟨b20, b21⟩, hd2⟩ := hd2
    obtain ⟨⟨b30, b31⟩, hd3⟩ := hd3
    have hres := read_logical_port_ok t log address resolution i2c_channel
      b00 b01 b10 b11 b20 b21 b30 b31 hopen hw0 hd0 hw1 hd1 hw2 hd2 hw3 hd3
    exact Or.inr ⟨_, _, _, _, congrArg Prod.snd hres⟩

/-- C2 (witness): the amended theorem applied to the concrete transport
whose third configuration write fails. -/
theorem C2_no_partial_results_witness :
    (read_logical_port t2 [] 0x48 1 0).2 = [] :=
  (C2_no_partial_results t2 [] 0x48 1 0).2 (by rfl)

/-- C3 (counterexample): with the probe reporting the device absent, the
error `Device.read` fails with is the generic `AdsReadException` (wrapping
`AdsNotFound`), not a bare `AdsNotFound` — and the channel/address it carries
are the module globals (0, 0x48), not the instance's (1, 0x49). -/
theorem C3_counterexample_not_found_is_wrapped :
    (Device.read d3 g3 t3).2 =
      Except.error (PyError.adsReadException (PyExc.adsNotFound 0 0x48)) ∧
    (Device.read d3 g3 t3).2 ≠ Except.error (PyError.adsNotFound 1 0x49) := by
  have h1 : (Device.read d3 g3 t3).2 =
      Except.error (PyError.adsReadException (PyExc.adsNotFound 0 0x48)) := by rfl
  exact ⟨h1, by rw [h1]; simp⟩

/-- C3 (amended): when the presence probe reports the device absent, `read()`
fails with `AdsReadException` wrapping `AdsNotFound` — the wrapped exception
carries the module-global channel and address — and no configuration-register
write is attempted. -/
theorem C3_absent_device_wrapped (self : Device) (g : Globals) (t : Transport)
    (gc ga : Nat) (hgc : g.i2c_channel = some gc) (hga : g.address = some ga)
    (hcheck : (check_if_device_exists t [] self.i2c_channel self.address).2 = false) :
    (Device.read self g t).2 =
      Except.error (PyError.adsReadException (PyExc.adsNotFound gc ga)) ∧
    countWrites (Device.read self g t).1 = 0 := by
  rw [device_read_probe_false self g t gc ga hgc hga hcheck]
  exact ⟨rfl, check_if_device_exists_no_write t self.i2c_channel self.address⟩

/-- C3 (witness): the amended theorem applied to the concrete
absent-device fixture. -/
theorem C3_absent_device_wrapped_witness :
    (Device.read d3 g3 t3).2 =
      Except.error (PyError.adsReadException (PyExc.adsNotFound 0 0x48)) ∧
    countWrites (Device.read d3 g3 t3).1 = 0 :=
  C3_absent_device_wrapped d3 g3 t3 0 0x48 rfl rfl (by rfl)

/-- C4: for every channel `c`, the two bytes written to the configuration
register (pointer 0x01) during that channel's read are the most-significant
then least-significant byte of the 16-bit word
`0x8000 ||| (0x4000 + c*0x1000) ||| 0x0200 ||| 0x0100 ||| 0x0080 ||| 0x0003`,
and each channel's word agrees with channel 0's outside the multiplexer
field (bits 14–12, mask 0x7000; agreement under mask 0x8FFF). -/
theorem C4_config_word (t : Transport) (log : List BusEvent) (bus address : Nat)
    (resolution : ℚ) (c : Fin 4) :
    (∃ rest, (read_channel t log bus address resolution (channelMux c)).1 =
      log ++ BusEvent.blockWrite bus address ADS1115_POINTER_CONFIG
        [(specConfigWord c >>> 8) &&& 0xFF, specConfigWord c &&& 0xFF] :: rest) ∧
    specConfigWord c &&& 0x8FFF = specConfigWord 0 &&& 0x8FFF := by
  have hdata : read_channel_data (channelMux c) =
      [(specConfigWord c >>> 8) &&& 0xFF, specConfigWord c &&& 0xFF] := by
    fin_cases c <;> rfl
  refine ⟨?_, by fin_cases c <;> decide⟩
  obtain ⟨rest, hres⟩ := read_channel_fst t log bus address resolution (channelMux c)
  rw [hdata] at hres
  exact ⟨rest, hres⟩

/-- C5: for every byte pair, the decoded raw sample is the big-endian
unsigned 16-bit value `v = b0*256 + b1` reinterpreted as signed
two's-complement: `v` if `v < 32768`, `v - 65536` otherwise. -/
theorem C5_decode_signed (b0 b1 : Nat) (h0 : b0 < 256) (h1 : b1 < 256) :
    to_signed_16 ((b0 <<< 8) ||| b1) =
      if b0 * 256 + b1 < 32768 then ((b0 * 256 + b1 : Nat) : Int)
      else ((b0 * 256 + b1 : Nat) : Int) - 65536 := by
  rw [shiftLeft_or_eq b0 b1 h1]
  unfold to_signed_16
  split_ifs <;> omega

/-- C5 (witness): bytes (0xFF, 0xFF) decode to −1. -/
theorem C5_decode_signed_witness :
    to_signed_16 ((0xFF <<< 8) ||| 0xFF) = -1 := by
  have h := C5_decode_signed 0xFF 0xFF (by decide) (by decide)
  rw [h]
  norm_num

/-- C6: a fully successful four-channel read cycle with resolution `r > 0`
returns exactly four voltage readings in fixed channel order 0, 1, 2, 3, each
being the channel's sign-adjusted raw value times `r`, with no other
operation applied. -/
theorem C6_four_voltages (t : Transport) (address : Nat) (resolution : ℚ)
    (i2c_channel : Nat) (b00 b01 b10 b11 b20 b21 b30 b31 : Nat)
    (hres : 0 < resolution)
    (hopen : t.openOk 0 i2c_channel = true)
    (hw0 : t.writeOk 0 i2c_channel address ADS1115_POINTER_CONFIG
      (read_channel_data ADS1115_CONFIG_MUX_SINGLE_0) = true)
    (hd0 : t.readRes 0 i2c_channel address ADS1115_POINTER_CONVERT = some (b00, b01))
    (hw1 : t.writeOk 1 i2c_channel address ADS1115_POINTER_CONFIG
      (read_channel_data ADS1115_CONFIG_MUX_SINGLE_1) = true)
    (hd1 : t.readRes 1 i2c_channel address ADS1115_POINTER_CONVERT = some (b10, b11))
    (hw2 : t.writeOk 2 i2c_channel address ADS1115_POINTER_CONFIG
      (read_channel_data ADS1115_CONFIG_MUX_SINGLE_2) = true)
    (hd2 : t.readRes 2 i2c_channel address ADS1115_POINTER_CONVERT = some (b20, b21))
    (hw3 : t.writeOk 3 i2c_channel address ADS1115_POINTER_CONFIG
      (read_channel_data ADS1115_CONFIG_MUX_SINGLE_3) = true)
    (hd3 : t.readRes 3 i2c_channel address ADS1115_POINTER_CONVERT = some (b30, b31)) :
    (read_logical_port t [] address resolution i2c_channel).2 =
      [(to_signed_16 ((b00 <<< 8) ||| b01) : ℚ) * resolution,
       (to_signed_16 ((b10 <<< 8) ||| b11) : ℚ) * resolution,
       (to_signed_16 ((b20 <<< 8) ||| b21) : ℚ) * resolution,
       (to_signed_16 ((b30 <<< 8) ||| b31) : ℚ) * resolution] := by
  rw [read_logical_port_ok t [] address resolution i2c_channel
    b00 b01 b10 b11 b20 b21 b30 b31 hopen hw0 hd0 hw1 hd1 hw2 hd2 hw3 hd3]

/-- C6 (witness): the all-zero-bytes transport with resolution 1 yields
four zero voltages. -/
theorem C6_four_voltages_witness :
    (read_logical_port t6 [] 0x48 1 0).2 = [0, 0, 0, 0] := by
  have h := C6_four_voltages t6 0x48 1 0 0 0 0 0 0 0 0 0
    (by norm_num) rfl rfl rfl rfl rfl rfl rfl rfl rfl
  rw [h]
  norm_num [to_signed_16]

/-- C7 (counterexample): with the bus open but no address responding, the
scan returns `Except.ok none` (Python `None`), not an empty sequence — the
claim's "not an absent/None value" is false on the code. -/
theorem C7_counterexample_scan_returns_none :
    search_i2c_memory t7 0 = Except.ok none ∧
    search_i2c_memory t7 0 ≠ Except.ok (some ([] : List Nat)) := by
  have h1 : search_i2c_memory t7 0 = Except.ok none := by rfl
  exact ⟨h1, by rw [h1]; simp⟩

/-- C7 (amended): when the bus transport opens but no address responds to the
presence probe, the scan returns `None` (an absent value) as a successful
result, not an empty sequence; it signals a hard error (`AdsReadException`)
exactly when the bus transport itself cannot be opened. -/
theorem C7_scan_none_or_error (t : Transport) (i2c_channel : Nat) :
    (t.openOk 0 i2c_channel = false →
      search_i2c_memory t i2c_channel =
        Except.error (PyError.adsReadException PyExc.osError)) ∧
    (t.openOk 0 i2c_channel = true →
      (∀ a ∈ List.range' 0x03 0x75, t.quickOk (a - 0x03) i2c_channel a = false) →
      search_i2c_memory t i2c_channel = Except.ok none) := by
  constructor
  · intro h
    rw [search_i2c_memory_eq, h]
    simp
  · intro hopen hq
    rw [search_i2c_memory_eq, hopen]
    simp only [if_true]
    have hfil : (List.range' 0x03 0x75).filter
        (fun a => t.quickOk (a - 0x03) i2c_channel a) = [] := by
      rw [List.filter_eq_nil_iff]
      intro a ha
      simp [hq a ha]
    rw [hfil]
    simp

/-- C7 (witness): the amended theorem applied to the concrete
nothing-responds fixture. -/
theorem C7_scan_none_or_error_witness :
    search_i2c_memory t7 0 = Except.ok none :=
  (C7_scan_none_or_error t7 0).2 rfl (fun a _ => rfl)

/-- C8: whenever the scan returns a sequence of responding addresses, it is
strictly ascending and confined to [0x03, 0x77]. -/
theorem C8_scan_sorted_bounded (t : Transport) (i2c_channel : Nat) (l : List Nat)
    (h : search_i2c_memory t i2c_channel = Except.ok (some l)) :
    l.Pairwise (· < ·) ∧ ∀ x ∈ l, 0x03 ≤ x ∧ x ≤ 0x77 := by
  rw [search_i2c_memory_eq] at h
  cases hopen : t.openOk 0 i2c_channel with
  | false => rw [hopen] at h; simp at h
  | true =>
    rw [hopen] at h
    simp only [if_true] at h
    split at h
    · simp at h
    · rw [Except.ok.injEq, Option.some.injEq] at h
      subst h
      constructor
      · exact List.Pairwise.filter _ (by decide)
      · intro x hx
        have hx' := List.mem_of_mem_filter hx
        have hall : ∀ y ∈ List.range' 0x03 0x75, 0x03 ≤ y ∧ y ≤ 0x77 := by decide
        exact hall x hx'

/-- C8 (witness): the theorem applied to a transport responding at 0x48 and
0x49 — the returned list [0x48, 0x49] is strictly ascending. -/
theorem C8_scan_sorted_bounded_witness :
    List.Pairwise (· < ·) [0x48, 0x49] :=
  (C8_scan_sorted_bounded t8 0 [0x48, 0x49] (by rfl)).1

/-- C9: the presence probe returns true iff the bus opens and the zero-length
quick-write transaction is acknowledged; a no-acknowledge (or a failed open)
is a normal `false` outcome — the function's return type is plain `Bool`
because its `except OSError` clause converts every bus-level error, so it
never raises for an absent device. -/
theorem C9_probe_boolean (t : Transport) (i2c_channel address : Nat) :
    (check_if_device_exists t [] i2c_channel address).2 =
      (t.openOk 0 i2c_channel && t.quickOk 0 i2c_channel address) := by
  rw [check_if_device_exists_eq]
  cases h : t.openOk 0 i2c_channel <;> simp [h]

/-- C10: whenever any transaction of the four-channel cycle fails (after a
successful presence probe, with the module globals bound),
`_read_logical_port` catches the exception and returns the empty list, and
`read()` passes it on as `Except.ok []` — a normal result, indistinguishable
from success by the call's outcome kind. -/
theorem C10_failures_swallowed (t : Transport) (self : Device) (g : Globals)
    (a : Nat) (r : ℚ) (c : Nat)
    (hga : g.address = some a) (hgr : g.resolution = some r) (hgc : g.i2c_channel = some c)
    (hopen : t.openOk 0 self.i2c_channel = true)
    (hquick : t.quickOk 0 self.i2c_channel self.address = true)
    (hfail : readCycleOk t [BusEvent.busOpen self.i2c_channel,
        BusEvent.quickWrite self.i2c_channel self.address] a c = false) :
    (Device.read self g t).2 = Except.ok ([] : List ℚ) := by
  rw [device_read_probe_true self g t a r c hga hgr hgc hopen hquick]
  dsimp only
  rw [read_logical_port_fail t _ a r c hfail]

/-- C10 (witness): the theorem applied to a transport that fails every
configuration write. -/
theorem C10_failures_swallowed_witness :
    (Device.read d10 g10 t10).2 = Except.ok ([] : List ℚ) :=
  C10_failures_swallowed t10 d10 g10 0x48 1 0 rfl rfl rfl rfl rfl (by rfl)

end ADS1115
